import Mathlib

/-!
# MyNeighborhood analytics core — verification of the specification

Shallow embedding of the analytics core of the MyNeighborhood repository:

* `holt-winters.ts` — `holtWintersForecast`, `generateProjections`,
  `formatProjectionForAPI`;
* `migration-signal.ts` — `calculateRollingAverage`, `analyzeMigrationSignal`;
* `cagr.ts` — `calculateCAGR`;
* the snapshot builder's `calculateProjections` aggregation step.

JavaScript numbers are modelled as rationals (`ℚ`), except `calculateCAGR`
whose `Math.pow` with a fractional exponent is modelled over the reals with
`Real.rpow`.  Years are integers (`ℤ`).  A thrown `Error` is modelled with
`Except String`.  Division by zero (which in JavaScript yields
`Infinity`/`NaN`) is outside the rational model; theorems that would be
affected carry the corresponding nonzero hypotheses.
-/

namespace MyNeighborhood

/-- JavaScript's `Math.abs` on a rational. -/
def jsAbs (x : ℚ) : ℚ := if x < 0 then -x else x

theorem jsAbs_eq_abs (x : ℚ) : jsAbs x = |x| := by
  unfold jsAbs
  split
  · exact (abs_of_neg (by assumption)).symm
  · exact (abs_of_nonneg (le_of_not_lt (by assumption))).symm

/-! ## Data model (holt-winters.ts) -/

/-- `HoltWintersParams` from holt-winters.ts: level and trend smoothing
parameters. -/
structure HoltWintersParams where
  alpha : ℚ
  beta : ℚ
  deriving DecidableEq, Repr

/-- The default parameters `{ alpha: 0.3, beta: 0.1 }`. -/
def defaultParams : HoltWintersParams := ⟨3 / 10, 1 / 10⟩

/-- `TimeSeriesPoint` from holt-winters.ts: `{ period, value }`. -/
structure TimeSeriesPoint where
  period : ℤ
  value : ℚ
  deriving DecidableEq, Repr

/-- The nested `confidenceBands` object of a `ProjectionResult`. -/
structure ConfidenceBands where
  lower : List ℚ
  upper : List ℚ
  deriving DecidableEq, Repr

/-- `ProjectionResult` from holt-winters.ts. -/
structure ProjectionResult where
  forecast : List ℚ
  confidenceBands : ConfidenceBands
  mape : ℚ
  deriving DecidableEq, Repr

/-! ## The forecaster (holt-winters.ts, `holtWintersForecast`)

The source loop

```
let level = values[0];
let trend = values[1] - values[0];
const smoothed = [level];
for (let i = 1; i < n; i++) {
  const prevLevel = level;
  level = params.alpha * values[i] + (1 - params.alpha) * (level + trend);
  trend = params.beta * (level - prevLevel) + (1 - params.beta) * trend;
  smoothed.push(level);
}
```

maintains the pair `(level, trend)`; one iteration is `hwStep`, the final
pair after consuming `values[1..]` is `hwFinal`, and the values pushed onto
`smoothed` are `hwSmoothTail`. -/

/-- One iteration of the source loop on the `(level, trend)` pair. -/
def hwStep (p : HoltWintersParams) (lt : ℚ × ℚ) (v : ℚ) : ℚ × ℚ :=
  let level := p.alpha * v + (1 - p.alpha) * (lt.1 + lt.2)
  let trend := p.beta * (level - lt.1) + (1 - p.beta) * lt.2
  (level, trend)

/-- The `(level, trend)` pair after the source loop has consumed all of
`vs`. -/
def hwFinal (p : HoltWintersParams) : ℚ × ℚ → List ℚ → ℚ × ℚ
  | lt, [] => lt
  | lt, v :: vs => hwFinal p (hwStep p lt v) vs

/-- The values pushed onto `smoothed` by the source loop (everything after
the initial `values[0]` entry). -/
def hwSmoothTail (p : HoltWintersParams) : ℚ × ℚ → List ℚ → List ℚ
  | _, [] => []
  | lt, v :: vs => (hwStep p lt v).1 :: hwSmoothTail p (hwStep p lt v) vs

/-- The body of `holtWintersForecast` after the `data.length < 2` guard
(holt-winters.ts lines 38-76), as a function of the extracted `values`
array. -/
def hwBody (values : List ℚ) (periods : ℕ) (params : HoltWintersParams) :
    ProjectionResult :=
  -- let level = values[0]; let trend = values.length > 1 ? values[1] - values[0] : 0
  let level := values.headD 0
  let trend := if 1 < values.length then values.getD 1 0 - values.getD 0 0 else 0
  let final := hwFinal params (level, trend) values.tail
  let smoothed := level :: hwSmoothTail params (level, trend) values.tail
  -- forecast.push(level + i * trend) for i = 1..periods
  let forecast := (List.range periods).map (fun i : ℕ => final.1 + ((i : ℚ) + 1) * final.2)
  -- errors = values.slice(1).map((actual, i) => Math.abs((actual - smoothed[i]) / actual) * 100)
  let errors := List.zipWith (fun actual s => jsAbs ((actual - s) / actual) * 100) values.tail smoothed
  let mape := errors.sum / (errors.length : ℚ)
  ⟨forecast,
   ⟨forecast.map (fun f => f * (1 - mape / 100)),
    forecast.map (fun f => f * (1 + mape / 100))⟩,
   mape⟩

/-- `holtWintersForecast(data, periods, params)` from holt-winters.ts.
Throws (`Except.error`) when `data.length < 2`; otherwise runs double
exponential smoothing and returns the forecast, proportional confidence
bands and the MAPE. -/
def holtWintersForecast (data : List TimeSeriesPoint) (periods : ℕ)
    (params : HoltWintersParams) : Except String ProjectionResult :=
  if data.length < 2 then
    Except.error "Need at least 2 data points for forecasting"
  else
    Except.ok (hwBody (data.map (fun d => d.value)) periods params)

/-- `generateProjections(incomeData, populationData, ageData)` from
holt-winters.ts: builds the result object by calling the forecaster on the
three series in order with horizon 10 and no try/catch, so a thrown error
propagates out of the whole call (JavaScript evaluates the object literal's
fields in order, aborting at the first throw). -/
def generateProjections
    (incomeData populationData ageData : List TimeSeriesPoint) :
    Except String (ProjectionResult × ProjectionResult × ProjectionResult) :=
  match holtWintersForecast incomeData 10 defaultParams with
  | Except.error e => Except.error e
  | Except.ok income =>
    match holtWintersForecast populationData 10 defaultParams with
    | Except.error e => Except.error e
    | Except.ok population =>
      match holtWintersForecast ageData 10 defaultParams with
      | Except.error e => Except.error e
      | Except.ok age => Except.ok (income, population, age)

/-- The record shape returned by `formatProjectionForAPI`.  Each numeric
field is an `Option` because the source reads `array[array.length - 1]`,
which is `undefined` (`none`) on an empty array. -/
structure APIProjection where
  population_idx : Option ℚ
  hh_income_idx : Option ℚ
  age_median : Option ℚ
  p25_hh_income_idx : Option ℚ
  p75_hh_income_idx : Option ℚ
  deriving DecidableEq, Repr

/-- `formatProjectionForAPI(result, baseYear)` from holt-winters.ts: takes
the last forecast value and the last lower/upper band values and repackages
them into named indices.  The source computes `finalYear = baseYear + 10`
but never uses it, so `baseYear` is dead. -/
def formatProjectionForAPI (result : ProjectionResult) (baseYear : ℤ) :
    APIProjection :=
  -- const finalYear = baseYear + 10;  (computed but never used)
  let finalForecast := result.forecast.getLast?
  let finalLower := result.confidenceBands.lower.getLast?
  let finalUpper := result.confidenceBands.upper.getLast?
  ⟨finalForecast, finalForecast, finalForecast, finalLower, finalUpper⟩

/-! ## Migration signal (migration-signal.ts) -/

/-- The `trend` field of a `MigrationSignal`. -/
inductive Trend where
  | increasing
  | decreasing
  | stable
  deriving DecidableEq, Repr

/-- The `confidence` field of a `MigrationSignal`. -/
inductive Confidence where
  | high
  | medium
  | low
  deriving DecidableEq, Repr

/-- `MigrationDataPoint` from migration-signal.ts. -/
structure MigrationDataPoint where
  year : ℤ
  netMigration1834 : ℚ
  deriving DecidableEq, Repr

/-- `MigrationSignal` from migration-signal.ts. -/
structure MigrationSignal where
  netMigration : ℚ
  rollingAverage : ℚ
  trend : Trend
  confidence : Confidence
  deriving DecidableEq, Repr

/-- `calculateRollingAverage(data, currentYear)` from migration-signal.ts:
mean of `netMigration1834` over the points with
`d.year >= currentYear - 2 && d.year <= currentYear`, `0` when there are
none. -/
def calculateRollingAverage (data : List MigrationDataPoint)
    (currentYear : ℤ) : ℚ :=
  let recentYears :=
    (data.filter (fun d =>
        decide (currentYear - 2 ≤ d.year) && decide (d.year ≤ currentYear))).map
      (fun d => d.netMigration1834)
  if recentYears.length = 0 then 0
  else recentYears.sum / (recentYears.length : ℚ)

/-- `analyzeMigrationSignal(data, currentYear)` from migration-signal.ts.
The source defaults `currentYear` to the wall-clock year; the reference
year is an explicit parameter here. -/
def analyzeMigrationSignal (data : List MigrationDataPoint)
    (currentYear : ℤ) : MigrationSignal :=
  let currentData := data.find? (fun d => decide (d.year = currentYear))
  let rollingAverage := calculateRollingAverage data currentYear
  let recentAverage := calculateRollingAverage data currentYear
  let previousAverage := calculateRollingAverage data (currentYear - 3)
  let trend : Trend :=
    if previousAverage + 10 < recentAverage then Trend.increasing
    else if recentAverage < previousAverage - 10 then Trend.decreasing
    else Trend.stable
  let dataPoints := (data.filter (fun d => decide (currentYear - 4 ≤ d.year))).length
  let confidence : Confidence :=
    if 4 ≤ dataPoints ∧ 20 < jsAbs (recentAverage - previousAverage) then Confidence.high
    else if 3 ≤ dataPoints then Confidence.medium
    else Confidence.low
  -- netMigration: currentData?.netMigration1834 || 0  (0 on a missing year)
  ⟨(currentData.map (fun d => d.netMigration1834)).getD 0,
   rollingAverage, trend, confidence⟩

/-! ## CAGR (cagr.ts)

`Math.pow` with a fractional exponent is real exponentiation, so
`calculateCAGR` is modelled over `ℝ` with `Real.rpow`. -/

/-- `calculateCAGR(startValue, endValue, years)` from cagr.ts: returns
`(endValue/startValue)^(1/years) - 1`, and exactly `0` on any nonpositive
argument. -/
noncomputable def calculateCAGR (startValue endValue years : ℝ) : ℝ :=
  if startValue ≤ 0 ∨ endValue ≤ 0 ∨ years ≤ 0 then 0
  else (endValue / startValue) ^ ((1 : ℝ) / years) - 1

/-! ## Snapshot aggregator projection step (snapshot builder,
`calculateProjections`)

The source wraps two `holtWintersForecast` calls in `try/catch` and on any
thrown error returns the neutral fallback record.  On the success path each
index is `x / data.income[0]?.value || 1.0`; JavaScript's `||` takes the
fallback exactly on a falsy left operand, which for the finite rationals of
this model means `0` (`NaN`/`Infinity` from a zero denominator are not
representable in `ℚ`, so theorems about the success path would carry the
corresponding nonzero hypotheses). -/

/-- The aggregate projection record stored in `proj10`:
`age_median` is `null` (`none`) in the fallback case. -/
structure Proj10 where
  population_idx : ℚ
  hh_income_idx : ℚ
  age_median : Option ℚ
  p25_hh_income_idx : ℚ
  p75_hh_income_idx : ℚ
  deriving DecidableEq, Repr

/-- JavaScript's `x || 1.0` on a finite numeric `x`: the fallback is taken
exactly when `x` is falsy, i.e. `0` for a finite number. -/
def jsOr1 (x : ℚ) : ℚ := if x = 0 then 1 else x

/-- The neutral fallback record of the aggregator's `catch` branch. -/
def fallbackProj10 : Proj10 := ⟨1, 1, none, 1, 1⟩

/-- `calculateProjections(geoId, data)` from the snapshot builder: runs the
forecaster on the income and age series; any thrown error is caught and
replaced by the neutral fallback record. -/
def calculateProjections (income age : List TimeSeriesPoint) : Proj10 :=
  match holtWintersForecast income 10 defaultParams,
        holtWintersForecast age 10 defaultParams with
  | Except.ok incomeProjection, Except.ok ageProjection =>
      let base := (income.headD ⟨0, 0⟩).value
      ⟨53 / 50,
       jsOr1 (incomeProjection.forecast.getLastD 0 / base),
       some (ageProjection.forecast.getLastD 0),
       jsOr1 (incomeProjection.confidenceBands.lower.getLastD 0 / base),
       jsOr1 (incomeProjection.confidenceBands.upper.getLastD 0 / base)⟩
  | _, _ => fallbackProj10

/-! ## Specification-side definitions

Independent definitions following the specification's own wording, used to
compare the embedded source against the spec (refinement claims about the
forecaster's recurrence, smoothed values and MAPE). -/

/-- The level/trend recurrence as the specification words it: from a
`(level, trend)` pair, for each remaining point take
`newLevel = alpha*value + (1-alpha)*(level+trend)` and
`newTrend = beta*(newLevel-level) + (1-beta)*trend`, then advance. -/
def specLevelTrend (alpha beta : ℚ) : ℚ × ℚ → List ℚ → ℚ × ℚ
  | lt, [] => lt
  | lt, value :: rest =>
    let newLevel := alpha * value + (1 - alpha) * (lt.1 + lt.2)
    let newTrend := beta * (newLevel - lt.1) + (1 - beta) * lt.2
    specLevelTrend alpha beta (newLevel, newTrend) rest

/-- The fitted (smoothed) values as the specification words them: the
`newLevel` recorded for each remaining point. -/
def specSmoothed (alpha beta : ℚ) : ℚ × ℚ → List ℚ → List ℚ
  | _, [] => []
  | lt, value :: rest =>
    let newLevel := alpha * value + (1 - alpha) * (lt.1 + lt.2)
    let newTrend := beta * (newLevel - lt.1) + (1 - beta) * lt.2
    newLevel :: specSmoothed alpha beta (newLevel, newTrend) rest

/-! ## Helper lemmas -/

theorem hwFinal_eq_specLevelTrend (p : HoltWintersParams) (lt : ℚ × ℚ)
    (vs : List ℚ) : hwFinal p lt vs = specLevelTrend p.alpha p.beta lt vs := by
  induction vs generalizing lt with
  | nil => rfl
  | cons v vs ih => simp only [hwFinal, specLevelTrend, hwStep, ih]

theorem hwSmoothTail_eq_specSmoothed (p : HoltWintersParams) (lt : ℚ × ℚ)
    (vs : List ℚ) : hwSmoothTail p lt vs = specSmoothed p.alpha p.beta lt vs := by
  induction vs generalizing lt with
  | nil => rfl
  | cons v vs ih => simp only [hwSmoothTail, specSmoothed, hwStep, ih]

theorem getD_range_map (f : ℕ → ℚ) (n i : ℕ) (hi : i < n) :
    ((List.range n).map f).getD i 0 = f i := by
  rw [List.getD_eq_getElem?_getD]
  simp [List.getElem?_map, List.getElem?_range hi]

theorem getD_map_of_lt (f : ℚ → ℚ) (l : List ℚ) (i : ℕ) (hi : i < l.length) :
    (l.map f).getD i 0 = f (l.getD i 0) := by
  rw [List.getD_eq_getElem?_getD, List.getD_eq_getElem?_getD,
    List.getElem?_map, List.getElem?_eq_getElem hi]
  rfl

theorem hwSmoothTail_length (p : HoltWintersParams) (lt : ℚ × ℚ)
    (vs : List ℚ) : (hwSmoothTail p lt vs).length = vs.length := by
  induction vs generalizing lt with
  | nil => rfl
  | cons v vs ih => simp [hwSmoothTail, ih]

theorem specSmoothed_length (a b : ℚ) (lt : ℚ × ℚ) (vs : List ℚ) :
    (specSmoothed a b lt vs).length = vs.length := by
  induction vs generalizing lt with
  | nil => rfl
  | cons v vs ih => simp [specSmoothed, ih]

theorem holtWintersForecast_error_of_lt (l : List TimeSeriesPoint)
    (periods : ℕ) (params : HoltWintersParams) (hl : l.length < 2) :
    holtWintersForecast l periods params =
      Except.error "Need at least 2 data points for forecasting" := by
  unfold holtWintersForecast
  rw [if_pos hl]

theorem holtWintersForecast_ok_of_le (l : List TimeSeriesPoint)
    (periods : ℕ) (params : HoltWintersParams) (hl : 2 ≤ l.length) :
    holtWintersForecast l periods params =
      Except.ok (hwBody (l.map (fun d => d.value)) periods params) := by
  unfold holtWintersForecast
  rw [if_neg (by omega)]

/-- Unfolding the forecaster on a series with at least two points. -/
theorem holtWintersForecast_cons₂ (d0 d1 : TimeSeriesPoint)
    (rest : List TimeSeriesPoint) (periods : ℕ) (params : HoltWintersParams) :
    holtWintersForecast (d0 :: d1 :: rest) periods params =
      Except.ok (hwBody (d0.value :: d1.value :: rest.map (fun d => d.value))
        periods params) := by
  simp [holtWintersForecast]

/-! ## Claim theorems -/

/-- C3: `holtWintersForecast` raises an error if and only if the series has
fewer than 2 points; with 2 or more points it returns a result without
error. -/
theorem holtWinters_error_iff (data : List TimeSeriesPoint) (periods : ℕ)
    (params : HoltWintersParams) :
    ((∃ e, holtWintersForecast data periods params = Except.error e) ↔
        data.length < 2) ∧
    ((∃ r, holtWintersForecast data periods params = Except.ok r) ↔
        2 ≤ data.length) := by
  unfold holtWintersForecast
  by_cases h : data.length < 2
  · simp only [if_pos h]
    simp [h]
  · simp only [if_neg h]
    simp [h]
    omega

/-- Witness for C3: one point fails, two points succeed. -/
theorem holtWinters_error_iff_witness :
    (∃ e, holtWintersForecast [⟨2020, 1⟩] 10 defaultParams = Except.error e) ∧
    (∃ r, holtWintersForecast [⟨2020, 1⟩, ⟨2021, 2⟩] 10 defaultParams =
      Except.ok r) :=
  ⟨(holtWinters_error_iff [⟨2020, 1⟩] 10 defaultParams).1.mpr (by simp),
   (holtWinters_error_iff [⟨2020, 1⟩, ⟨2021, 2⟩] 10 defaultParams).2.mpr
     (by simp)⟩

/-- C4: on a series of `n ≥ 2` points and horizon `h ≥ 1`, the forecast has
length `h` and its entry at index `i - 1` (for `i = 1..h`) equals
`finalLevel + i * finalTrend`, where the final pair follows the
specification's recurrence initialized with `level = values[0]`,
`trend = values[1] - values[0]` and iterated over the remaining points. -/
theorem holtWinters_recurrence (d0 d1 : TimeSeriesPoint)
    (rest : List TimeSeriesPoint) (h : ℕ) (params : HoltWintersParams)
    (hh : 1 ≤ h) :
    ∃ r, holtWintersForecast (d0 :: d1 :: rest) h params = Except.ok r ∧
      r.forecast.length = h ∧
      ∀ i : ℕ, i < h →
        r.forecast.getD i 0 =
          (specLevelTrend params.alpha params.beta
              (d0.value, d1.value - d0.value)
              (d1.value :: rest.map (fun d => d.value))).1 +
          ((i : ℚ) + 1) *
            (specLevelTrend params.alpha params.beta
              (d0.value, d1.value - d0.value)
              (d1.value :: rest.map (fun d => d.value))).2 := by
  clear hh
  refine ⟨_, holtWintersForecast_cons₂ d0 d1 rest h params, ?_, ?_⟩
  · simp [hwBody]
  · intro i hi
    simp only [hwBody, List.headD_cons, List.tail_cons, List.length_cons,
      List.getD_cons_succ, List.getD_cons_zero]
    rw [if_pos (by omega)]
    rw [getD_range_map _ _ _ hi, hwFinal_eq_specLevelTrend]

/-- Witness for C4 at a concrete two-point series and horizon 2. -/
theorem holtWinters_recurrence_witness :
    ∃ r, holtWintersForecast [⟨2020, 10⟩, ⟨2021, 20⟩] 2 defaultParams =
        Except.ok r ∧
      r.forecast.length = 2 ∧
      ∀ i : ℕ, i < 2 →
        r.forecast.getD i 0 =
          (specLevelTrend defaultParams.alpha defaultParams.beta
              ((10 : ℚ), (20 : ℚ) - 10) [(20 : ℚ)]).1 +
          ((i : ℚ) + 1) *
            (specLevelTrend defaultParams.alpha defaultParams.beta
              ((10 : ℚ), (20 : ℚ) - 10) [(20 : ℚ)]).2 :=
  holtWinters_recurrence ⟨2020, 10⟩ ⟨2021, 20⟩ [] 2 defaultParams
    (by norm_num)

/-- C5 counterexample: for the two-point series with values `1, -2` the
code returns `mape = 150` (it takes the absolute value of the whole
quotient), while the claim's formula `|actual - fitted| / actual * 100`
evaluates to `-150` at the only fitted point (`actual = -2`,
`fitted = smoothed[0] = 1`), which is nonzero, so the claim fails on a
series with a negative actual value. -/
theorem holtWinters_mape_counterexample :
    (holtWintersForecast [⟨2020, 1⟩, ⟨2021, -2⟩] 10 defaultParams).map
        ProjectionResult.mape = Except.ok 150 ∧
    |(-2 : ℚ) - 1| / (-2) * 100 = -150 ∧
    (150 : ℚ) ≠ -150 := by
  refine ⟨?_, by norm_num, by norm_num⟩
  rw [holtWintersForecast_cons₂]
  simp only [Except.map]
  norm_num [hwBody, hwSmoothTail, hwStep, jsAbs, defaultParams]

/-- C5 (amended): for a series of `n ≥ 2` points whose values at indices
`1..n-1` are nonzero, the returned `mape` is the mean, over all fitted
points except the first, of `|actual - fitted| / |actual| * 100` (the
absolute value is taken of the whole quotient), where each actual value
`values[i]` (`i ≥ 1`) is compared against the prior smoothed value
`smoothed[i-1]`. -/
theorem holtWinters_mape (d0 d1 : TimeSeriesPoint)
    (rest : List TimeSeriesPoint) (periods : ℕ) (params : HoltWintersParams)
    (hnz : ∀ v ∈ d1.value :: rest.map (fun d => d.value), v ≠ 0) :
    ∃ r, holtWintersForecast (d0 :: d1 :: rest) periods params =
        Except.ok r ∧
      r.mape =
        (List.zipWith (fun actual fitted => |actual - fitted| / |actual| * 100)
            (d1.value :: rest.map (fun d => d.value))
            (d0.value :: specSmoothed params.alpha params.beta
              (d0.value, d1.value - d0.value)
              (d1.value :: rest.map (fun d => d.value)))).sum /
          ((rest.length + 1 : ℕ) : ℚ) := by
  clear hnz
  refine ⟨_, holtWintersForecast_cons₂ d0 d1 rest periods params, ?_⟩
  have hfun : (fun actual s : ℚ => jsAbs ((actual - s) / actual) * 100)
      = fun actual fitted => |actual - fitted| / |actual| * 100 := by
    funext a s
    rw [jsAbs_eq_abs, abs_div]
  simp only [hwBody, List.headD_cons, List.tail_cons, List.length_cons,
    List.getD_cons_succ, List.getD_cons_zero]
  rw [if_pos (by omega), hwSmoothTail_eq_specSmoothed, hfun]
  congr 1
  rw [List.length_zipWith]
  simp [specSmoothed_length]

/-- C6: on a valid input the confidence bands have the same length as the
forecast (namely `periods`) and are the elementwise proportional bands
`forecast * (1 ∓ mape/100)`. -/
theorem holtWinters_bands (data : List TimeSeriesPoint) (periods : ℕ)
    (params : HoltWintersParams) (hlen : 2 ≤ data.length) :
    ∃ r, holtWintersForecast data periods params = Except.ok r ∧
      r.forecast.length = periods ∧
      r.confidenceBands.lower.length = r.forecast.length ∧
      r.confidenceBands.upper.length = r.forecast.length ∧
      ∀ i : ℕ, i < periods →
        r.confidenceBands.lower.getD i 0 =
          r.forecast.getD i 0 * (1 - r.mape / 100) ∧
        r.confidenceBands.upper.getD i 0 =
          r.forecast.getD i 0 * (1 + r.mape / 100) := by
  have hguard : ¬ data.length < 2 := by omega
  refine ⟨hwBody (data.map (fun d => d.value)) periods params, ?_, ?_, ?_, ?_, ?_⟩
  · unfold holtWintersForecast
    rw [if_neg hguard]
  · simp [hwBody]
  · simp [hwBody]
  · simp [hwBody]
  · intro i hi
    have hflen :
        ((List.range periods).map
          (fun j : ℕ =>
            (hwFinal params
              ((data.map (fun d => d.value)).headD 0,
               if 1 < (data.map (fun d => d.value)).length then
                 (data.map (fun d => d.value)).getD 1 0 -
                   (data.map (fun d => d.value)).getD 0 0
               else 0)
              (data.map (fun d => d.value)).tail).1 +
            ((j : ℚ) + 1) *
              (hwFinal params
                ((data.map (fun d => d.value)).headD 0,
                 if 1 < (data.map (fun d => d.value)).length then
                   (data.map (fun d => d.value)).getD 1 0 -
                     (data.map (fun d => d.value)).getD 0 0
                 else 0)
                (data.map (fun d => d.value)).tail).2)).length = periods := by
      simp
    constructor
    · simp only [hwBody]
      rw [getD_map_of_lt _ _ _ (by rw [hflen]; exact hi)]
    · simp only [hwBody]
      rw [getD_map_of_lt _ _ _ (by rw [hflen]; exact hi)]

/-- Witness for C6 at a concrete two-point series with horizon 10. -/
theorem holtWinters_bands_witness :
    ∃ r, holtWintersForecast [⟨2020, 1⟩, ⟨2021, 2⟩] 10 defaultParams =
        Except.ok r ∧
      r.forecast.length = 10 ∧
      r.confidenceBands.lower.length = r.forecast.length ∧
      r.confidenceBands.upper.length = r.forecast.length ∧
      ∀ i : ℕ, i < 10 →
        r.confidenceBands.lower.getD i 0 =
          r.forecast.getD i 0 * (1 - r.mape / 100) ∧
        r.confidenceBands.upper.getD i 0 =
          r.forecast.getD i 0 * (1 + r.mape / 100) :=
  holtWinters_bands [⟨2020, 1⟩, ⟨2021, 2⟩] 10 defaultParams (by simp)

/-- Witness for C5 at a concrete two-point series with nonzero actuals. -/
theorem holtWinters_mape_witness :
    ∃ r, holtWintersForecast [⟨2020, 1⟩, ⟨2021, 2⟩] 10 defaultParams =
        Except.ok r ∧
      r.mape =
        (List.zipWith (fun actual fitted => |actual - fitted| / |actual| * 100)
            [(2 : ℚ)]
            ((1 : ℚ) :: specSmoothed defaultParams.alpha
              defaultParams.beta ((1 : ℚ), (2 : ℚ) - 1) [(2 : ℚ)])).sum /
          ((0 + 1 : ℕ) : ℚ) := by
  exact holtWinters_mape ⟨2020, 1⟩ ⟨2021, 2⟩ [] 10 defaultParams
    (by intro v hv; simp at hv; simp [hv])

/-- C1 counterexample: the income series has one point while the
population and age series have two points each, yet `generateProjections`
returns an error as a whole — the population series has at least 2 points
but yields no `ProjectionResult`, so a failure in one series does block the
others. -/
theorem generateProjections_counterexample :
    2 ≤ ([⟨2020, 1⟩, ⟨2021, 2⟩] : List TimeSeriesPoint).length ∧
    generateProjections [⟨2020, 1⟩] [⟨2020, 1⟩, ⟨2021, 2⟩]
        [⟨2020, 1⟩, ⟨2021, 2⟩] =
      Except.error "Need at least 2 data points for forecasting" :=
  ⟨by simp, rfl⟩

/-- C1 (amended): `generateProjections` does not isolate failures per
series: if any of the three series has fewer than 2 points, the whole call
fails with the forecaster's error and no series yields a result; only when
all three series have at least 2 points does each yield its
`holtWintersForecast` result with horizon 10. -/
theorem generateProjections_spec (inc pop age : List TimeSeriesPoint) :
    (inc.length < 2 ∨ pop.length < 2 ∨ age.length < 2 →
      generateProjections inc pop age =
        Except.error "Need at least 2 data points for forecasting") ∧
    (2 ≤ inc.length → 2 ≤ pop.length → 2 ≤ age.length →
      ∃ ri rp ra, generateProjections inc pop age = Except.ok (ri, rp, ra) ∧
        holtWintersForecast inc 10 defaultParams = Except.ok ri ∧
        holtWintersForecast pop 10 defaultParams = Except.ok rp ∧
        holtWintersForecast age 10 defaultParams = Except.ok ra) := by
  constructor
  · intro hlt
    unfold generateProjections
    rcases hlt with h | h | h
    · rw [holtWintersForecast_error_of_lt _ _ _ h]
    · by_cases hi : inc.length < 2
      · rw [holtWintersForecast_error_of_lt _ _ _ hi]
      · rw [holtWintersForecast_ok_of_le _ _ _ (by omega),
          holtWintersForecast_error_of_lt _ _ _ h]
    · by_cases hi : inc.length < 2
      · rw [holtWintersForecast_error_of_lt _ _ _ hi]
      · rw [holtWintersForecast_ok_of_le inc _ _ (by omega)]
        by_cases hp : pop.length < 2
        · rw [holtWintersForecast_error_of_lt _ _ _ hp]
        · rw [holtWintersForecast_ok_of_le pop _ _ (by omega),
            holtWintersForecast_error_of_lt _ _ _ h]
  · intro hi hp ha
    refine ⟨_, _, _, ?_, holtWintersForecast_ok_of_le inc _ _ hi,
      holtWintersForecast_ok_of_le pop _ _ hp,
      holtWintersForecast_ok_of_le age _ _ ha⟩
    unfold generateProjections
    rw [holtWintersForecast_ok_of_le inc _ _ hi,
      holtWintersForecast_ok_of_le pop _ _ hp,
      holtWintersForecast_ok_of_le age _ _ ha]

/-- Witness for C1 (amended) at concrete inputs: a short series aborts the
whole call; three valid series all succeed. -/
theorem generateProjections_spec_witness :
    generateProjections [⟨2020, 1⟩] [⟨2020, 1⟩] [⟨2020, 1⟩] =
      Except.error "Need at least 2 data points for forecasting" ∧
    ∃ ri rp ra,
      generateProjections [⟨2020, 1⟩, ⟨2021, 2⟩] [⟨2020, 3⟩, ⟨2021, 4⟩]
          [⟨2020, 5⟩, ⟨2021, 6⟩] = Except.ok (ri, rp, ra) ∧
        holtWintersForecast [⟨2020, 1⟩, ⟨2021, 2⟩] 10 defaultParams =
          Except.ok ri ∧
        holtWintersForecast [⟨2020, 3⟩, ⟨2021, 4⟩] 10 defaultParams =
          Except.ok rp ∧
        holtWintersForecast [⟨2020, 5⟩, ⟨2021, 6⟩] 10 defaultParams =
          Except.ok ra :=
  ⟨(generateProjections_spec [⟨2020, 1⟩] [⟨2020, 1⟩] [⟨2020, 1⟩]).1
      (Or.inl (by simp)),
   (generateProjections_spec [⟨2020, 1⟩, ⟨2021, 2⟩] [⟨2020, 3⟩, ⟨2021, 4⟩]
      [⟨2020, 5⟩, ⟨2021, 6⟩]).2 (by simp) (by simp) (by simp)⟩

/-- C2: whenever the forecaster fails on the income series or on the age
series (for instance because it has fewer than 2 points), the aggregator's
`calculateProjections` catches the failure and returns the neutral
fallback record `{ population_idx: 1.0, hh_income_idx: 1.0,
age_median: null, p25.hh_income_idx: 1.0, p75.hh_income_idx: 1.0 }` rather
than propagating the error or omitting the record. -/
theorem calculateProjections_fallback (income age : List TimeSeriesPoint)
    (hfail :
      (∃ e, holtWintersForecast income 10 defaultParams = Except.error e) ∨
      (∃ e, holtWintersForecast age 10 defaultParams = Except.error e)) :
    calculateProjections income age = ⟨1, 1, none, 1, 1⟩ := by
  unfold calculateProjections
  rcases hfail with ⟨e, he⟩ | ⟨e, he⟩
  · rw [he]
    cases h2 : holtWintersForecast age 10 defaultParams <;> rfl
  · rw [he]
    cases h1 : holtWintersForecast income 10 defaultParams <;> rfl

/-- Witness for C2: an empty income series triggers the fallback record. -/
theorem calculateProjections_fallback_witness :
    calculateProjections [] [⟨2020, 1⟩, ⟨2021, 2⟩] = ⟨1, 1, none, 1, 1⟩ :=
  calculateProjections_fallback [] [⟨2020, 1⟩, ⟨2021, 2⟩]
    (Or.inl ⟨"Need at least 2 data points for forecasting", rfl⟩)

/-- C7: `calculateCAGR` returns `(endValue/startValue)^(1/years) - 1` when
all three arguments are positive and exactly `0` (never an error) on any
nonpositive argument; in particular `calculateCAGR 100 100 5 = 0` and
`calculateCAGR 100 200 1 = 1`. -/
theorem calculateCAGR_spec (s e y : ℝ) :
    (0 < s → 0 < e → 0 < y →
      calculateCAGR s e y = (e / s) ^ ((1 : ℝ) / y) - 1) ∧
    (s ≤ 0 ∨ e ≤ 0 ∨ y ≤ 0 → calculateCAGR s e y = 0) ∧
    calculateCAGR 100 100 5 = 0 ∧
    calculateCAGR 100 200 1 = 1 := by
  refine ⟨?_, ?_, ?_, ?_⟩
  · intro hs he hy
    have h : ¬ (s ≤ 0 ∨ e ≤ 0 ∨ y ≤ 0) := by push_neg; exact ⟨hs, he, hy⟩
    unfold calculateCAGR
    rw [if_neg h]
  · intro h
    unfold calculateCAGR
    rw [if_pos h]
  · unfold calculateCAGR
    rw [if_neg (by norm_num)]
    rw [show ((100 : ℝ) / 100) = 1 by norm_num, Real.one_rpow]
    norm_num
  · unfold calculateCAGR
    rw [if_neg (by norm_num)]
    rw [show ((200 : ℝ) / 100) = 2 by norm_num,
      show ((1 : ℝ) / 1) = 1 by norm_num, Real.rpow_one]
    norm_num

/-- Witness for C7: both formula branches at concrete inputs. -/
theorem calculateCAGR_spec_witness :
    calculateCAGR 100 100 5 = 0 ∧
    calculateCAGR 100 200 1 = 1 ∧
    calculateCAGR (-1) 2 3 = 0 ∧
    calculateCAGR 2 8 1 = ((8 : ℝ) / 2) ^ ((1 : ℝ) / 1) - 1 :=
  ⟨(calculateCAGR_spec 100 100 5).2.2.1,
   (calculateCAGR_spec 100 200 1).2.2.2,
   (calculateCAGR_spec (-1) 2 3).2.1 (Or.inl (by norm_num)),
   (calculateCAGR_spec 2 8 1).1 (by norm_num) (by norm_num) (by norm_num)⟩

/-- The 3-year trailing window mean as the specification words it: the
arithmetic mean of `netMigration1834` over the points whose year lies in
the inclusive window `[year-2, year]`, and `0` if no point falls there. -/
def specWindowMean (data : List MigrationDataPoint) (year : ℤ) : ℚ :=
  let w := data.filter (fun d => decide (year - 2 ≤ d.year ∧ d.year ≤ year))
  if w = [] then 0
  else (w.map (fun d => d.netMigration1834)).sum / (w.length : ℚ)

/-- C8: `calculateRollingAverage` is the arithmetic mean over exactly the
points whose year lies in the inclusive window `[year-2, year]`, `0` when
no point falls in the window; `[]` yields `0` and the specification's
three-point example yields `20`. -/
theorem calculateRollingAverage_spec (data : List MigrationDataPoint)
    (year : ℤ) :
    calculateRollingAverage data year = specWindowMean data year ∧
    ((∀ d ∈ data, d.year < year - 2 ∨ year < d.year) →
      calculateRollingAverage data year = 0) ∧
    calculateRollingAverage [] year = 0 ∧
    calculateRollingAverage [⟨2022, 10⟩, ⟨2023, 20⟩, ⟨2024, 30⟩] 2024 = 20 := by
  have hpred : (fun d : MigrationDataPoint =>
      decide (year - 2 ≤ d.year ∧ d.year ≤ year))
      = fun d => decide (year - 2 ≤ d.year) && decide (d.year ≤ year) := by
    funext d
    by_cases h1 : year - 2 ≤ d.year <;> by_cases h2 : d.year ≤ year <;>
      simp [h1, h2]
  refine ⟨?_, ?_, by norm_num [calculateRollingAverage], ?_⟩
  · unfold calculateRollingAverage specWindowMean
    rw [hpred]
    cases hw : data.filter
        (fun d => decide (year - 2 ≤ d.year) && decide (d.year ≤ year)) with
    | nil => simp
    | cons a l => simp
  · intro hout
    unfold calculateRollingAverage
    have hnil : data.filter
        (fun d => decide (year - 2 ≤ d.year) && decide (d.year ≤ year)) = [] := by
      rw [List.filter_eq_nil_iff]
      intro d hd
      rcases hout d hd with h | h <;> simp <;> omega
    rw [hnil]
    simp
  · norm_num [calculateRollingAverage, List.filter]

/-- Witness for C8: a data set whose points all miss the window. -/
theorem calculateRollingAverage_spec_witness :
    calculateRollingAverage [⟨2010, 7⟩] 2024 = 0 :=
  (calculateRollingAverage_spec [⟨2010, 7⟩] 2024).2.1
    (by intro d hd; simp at hd; simp [hd])

/-- C9: the migration signal's trend compares the rolling average ending at
`year` against the rolling average ending at `year - 3`: `increasing` when
the later average exceeds the earlier by more than 10, `decreasing` when it
is lower by more than 10, else `stable`; a series increasing by more than
10 between the two windows is classified `increasing`. -/
theorem analyzeMigrationSignal_trend (data : List MigrationDataPoint)
    (year : ℤ) :
    (analyzeMigrationSignal data year).trend =
      (if calculateRollingAverage data (year - 3) + 10 <
          calculateRollingAverage data year then Trend.increasing
       else if calculateRollingAverage data year <
          calculateRollingAverage data (year - 3) - 10 then Trend.decreasing
       else Trend.stable) ∧
    (analyzeMigrationSignal
        [⟨2019, 0⟩, ⟨2020, 0⟩, ⟨2021, 0⟩, ⟨2022, 50⟩, ⟨2023, 50⟩, ⟨2024, 50⟩]
        2024).trend = Trend.increasing := by
  constructor
  · rfl
  · norm_num [analyzeMigrationSignal, calculateRollingAverage, List.filter]

theorem getLast?_eq_getLastD (l : List ℚ) (h : l ≠ []) :
    l.getLast? = some (l.getLastD 0) := by
  rw [List.getLastD_eq_getLast?, List.getLast?_eq_getLast l h]
  rfl

/-- C10: `formatProjectionForAPI` writes the same final forecast value into
`population_idx`, `hh_income_idx` and `age_median`, the final lower and
upper band values into `p25.hh_income_idx` and `p75.hh_income_idx`, and the
result does not depend on `baseYear` at all. -/
theorem formatProjectionForAPI_spec (r : ProjectionResult) (y : ℤ)
    (hf : r.forecast ≠ []) (hl : r.confidenceBands.lower ≠ [])
    (hu : r.confidenceBands.upper ≠ []) :
    (formatProjectionForAPI r y).population_idx
        = some (r.forecast.getLastD 0) ∧
    (formatProjectionForAPI r y).hh_income_idx
        = some (r.forecast.getLastD 0) ∧
    (formatProjectionForAPI r y).age_median
        = some (r.forecast.getLastD 0) ∧
    (formatProjectionForAPI r y).p25_hh_income_idx
        = some (r.confidenceBands.lower.getLastD 0) ∧
    (formatProjectionForAPI r y).p75_hh_income_idx
        = some (r.confidenceBands.upper.getLastD 0) ∧
    ∀ y1 y2 : ℤ, formatProjectionForAPI r y1 = formatProjectionForAPI r y2 := by
  unfold formatProjectionForAPI
  rw [getLast?_eq_getLastD _ hf, getLast?_eq_getLastD _ hl,
    getLast?_eq_getLastD _ hu]
  exact ⟨rfl, rfl, rfl, rfl, rfl, fun y1 y2 => rfl⟩

/-- Witness for C10 at a concrete `ProjectionResult`. -/
theorem formatProjectionForAPI_spec_witness :
    (formatProjectionForAPI ⟨[1, 2], ⟨[3], [4]⟩, 5⟩ 2020).population_idx
        = some (([1, 2] : List ℚ).getLastD 0) ∧
    (formatProjectionForAPI ⟨[1, 2], ⟨[3], [4]⟩, 5⟩ 2020).hh_income_idx
        = some (([1, 2] : List ℚ).getLastD 0) ∧
    (formatProjectionForAPI ⟨[1, 2], ⟨[3], [4]⟩, 5⟩ 2020).age_median
        = some (([1, 2] : List ℚ).getLastD 0) ∧
    (formatProjectionForAPI ⟨[1, 2], ⟨[3], [4]⟩, 5⟩ 2020).p25_hh_income_idx
        = some (([3] : List ℚ).getLastD 0) ∧
    (formatProjectionForAPI ⟨[1, 2], ⟨[3], [4]⟩, 5⟩ 2020).p75_hh_income_idx
        = some (([4] : List ℚ).getLastD 0) ∧
    ∀ y1 y2 : ℤ, formatProjectionForAPI ⟨[1, 2], ⟨[3], [4]⟩, 5⟩ y1
        = formatProjectionForAPI ⟨[1, 2], ⟨[3], [4]⟩, 5⟩ y2 :=
  formatProjectionForAPI_spec ⟨[1, 2], ⟨[3], [4]⟩, 5⟩ 2020
    (by simp) (by simp) (by simp)

end MyNeighborhood
